import Mathlib

/-!
Verification development for the EVMC host-context bridge
(src/core/vm/evmc.go): storage write classification and refund
accounting, revision resolution, block-hash windowing, self-destruct
bookkeeping, call dispatch, and the engine-bridge run lifecycle.

Hashes, addresses and storage keys are modelled as natural numbers with
0 standing for the zero hash; machine integers that can wrap are
modelled as Int with explicit reduction modulo 2^64 where the source
converts to uint64.
-/

set_option linter.unusedVariables false

namespace EvmcBridge

/-- Modelled from the spec: the fixed selfdestruct-style refund granted when a
slot is cleared in legacy mode (vars.SstoreRefundGas, params/vars is not in
src); upstream value 15000. -/
def SstoreRefundGas : Nat := 15000

/-- Modelled from the spec: net-metering clear refund constant
(vars.NetSstoreClearRefund, params/vars is not in src); upstream value 15000. -/
def NetSstoreClearRefund : Nat := 15000

/-- Modelled from the spec: default net-metering reset-to-existing refund
constant (vars.NetSstoreResetRefund, params/vars is not in src); upstream
value 4800. -/
def NetSstoreResetRefund : Nat := 4800

/-- Modelled from the spec: default net-metering reset-to-nonexistent refund
constant (vars.NetSstoreResetClearRefund, params/vars is not in src); upstream
value 19200. -/
def NetSstoreResetClearRefund : Nat := 19200

/-- Modelled from the spec: EIP2200 sstore set gas (vars.SstoreSetGasEIP2200,
params/vars is not in src); the source comment records the difference
20000 - 800 = 19200. -/
def SstoreSetGasEIP2200 : Nat := 20000

/-- Modelled from the spec: EIP2200 sload gas (vars.SloadGasEIP2200,
params/vars is not in src); upstream value 800. -/
def SloadGasEIP2200 : Nat := 800

/-- Modelled from the spec: EIP2200 sstore reset gas
(vars.SstoreResetGasEIP2200, params/vars is not in src); the source comment
records the difference 5000 - 800 = 4200. -/
def SstoreResetGasEIP2200 : Nat := 5000

/-- Modelled from the spec: fixed self-destruct refund constant
(vars.SelfdestructRefundGas, params/vars is not in src); upstream value
24000. -/
def SelfdestructRefundGas : Nat := 24000

/-- Fork configuration: each field is the activation height of one protocol
transition (none when the transition is never enabled), mirroring the
GetEIPxxxTransition accessors consumed by evmc.go. -/
structure ChainConfig where
  eip7 : Option Nat
  eip150 : Option Nat
  eip155 : Option Nat
  eip198 : Option Nat
  eip145 : Option Nat
  eip1283Disable : Option Nat
  eip1884 : Option Nat
  eip2200 : Option Nat
deriving DecidableEq

/-- ChainConfig.IsEnabled: a transition is enabled at block n when it has an
activation height and that height is at or below n. -/
def IsEnabled (t : Option Nat) (n : Nat) : Bool :=
  match t with
  | none => false
  | some h => decide (h ≤ n)

/-- evmc.Revision values used by getRevision. -/
inductive Revision where
  | frontier
  | homestead
  | tangerineWhistle
  | spuriousDragon
  | byzantium
  | constantinople
  | petersburg
  | istanbul
deriving DecidableEq

/-- getRevision (evmc.go lines 302-327): check transition predicates in
descending protocol-adoption order, return the revision of the first enabled
one, fall back to Frontier. -/
def getRevision (conf : ChainConfig) (n : Nat) : Revision :=
  if IsEnabled conf.eip1884 n then Revision.istanbul
  else if IsEnabled conf.eip1283Disable n then Revision.petersburg
  else if IsEnabled conf.eip145 n then Revision.constantinople
  else if IsEnabled conf.eip198 n then Revision.byzantium
  else if IsEnabled conf.eip155 n then Revision.spuriousDragon
  else if IsEnabled conf.eip150 n then Revision.tangerineWhistle
  else if IsEnabled conf.eip7 n then Revision.homestead
  else Revision.frontier

/-- evmc.StorageStatus. -/
inductive StorageStatus where
  | unchanged
  | added
  | modified
  | deleted
  | modifiedAgain
deriving DecidableEq

/-- One refund-counter operation performed on the state accessor, recorded so
that theorems can speak about which adjustments fired. -/
inductive RefundOp where
  | add (n : Nat)
  | sub (n : Nat)
deriving DecidableEq

/-- The state accessor (StateDB) as consumed by evmc.go: current and
start-of-transaction storage, the refund counter with an operation trace, the
trace of SetState invocations, balances and the self-destruct marks. -/
structure StateDB where
  storage : Nat → Nat → Nat
  committed : Nat → Nat → Nat
  refund : Nat
  refundLog : List RefundOp
  writes : List (Nat × Nat × Nat)
  balances : Nat → Nat
  suicided : Nat → Bool

/-- StateDB.GetState. -/
def GetState (db : StateDB) (addr key : Nat) : Nat :=
  db.storage addr key

/-- StateDB.GetCommittedState. -/
def GetCommittedState (db : StateDB) (addr key : Nat) : Nat :=
  db.committed addr key

/-- Pointwise update of a two-argument map. -/
def updFun (f : Nat → Nat → Nat) (a k v : Nat) : Nat → Nat → Nat :=
  fun a2 k2 => if a2 = a ∧ k2 = k then v else f a2 k2

/-- StateDB.SetState: write the slot and record the invocation. -/
def SetState (db : StateDB) (addr key value : Nat) : StateDB :=
  { db with
    storage := updFun db.storage addr key value
    writes := (addr, key, value) :: db.writes }

/-- StateDB.AddRefund. -/
def AddRefund (db : StateDB) (n : Nat) : StateDB :=
  { db with refund := db.refund + n, refundLog := RefundOp.add n :: db.refundLog }

/-- StateDB.SubRefund (never invoked below without a matching earlier
addition, so truncated subtraction is exact on every reachable path). -/
def SubRefund (db : StateDB) (n : Nat) : StateDB :=
  { db with refund := db.refund - n, refundLog := RefundOp.sub n :: db.refundLog }

/-- The part of the EVM execution context that SetStorage consults: the chain
configuration, the current block number and the state accessor. -/
structure HostEnv where
  config : ChainConfig
  blockNumber : Nat
  db : StateDB

/-- evmc.go line 137: net storage metering is on exactly when EIP2200 and
EIP1884 are both enabled. -/
def hasNetStorageCostEIP (hasEIP2200 hasEIP1884 : Bool) : Bool :=
  hasEIP2200 && hasEIP1884

/-- evmc.go lines 151-157: the reset-to-nonexistent refund constant, the
default overwritten with the EIP2200 value when EIP2200 is enabled. -/
def resetClearRefundFor (hasEIP2200 : Bool) : Nat :=
  if hasEIP2200 then SstoreSetGasEIP2200 - SloadGasEIP2200 else NetSstoreResetClearRefund

/-- evmc.go lines 151-157: the reset-to-existing refund constant, the default
overwritten with the EIP2200 value when EIP2200 is enabled. -/
def cleanRefundFor (hasEIP2200 : Bool) : Nat :=
  if hasEIP2200 then SstoreResetGasEIP2200 - SloadGasEIP2200 else NetSstoreResetRefund

/-- hostContext.SetStorage (evmc.go lines 116-184): classify the write,
adjust the refund counter, and return the storage status together with the
updated environment. -/
def SetStorage (host : HostEnv) (addr key value : Nat) : StorageStatus × HostEnv :=
  let oldValue := GetState host.db addr key
  if oldValue = value then (StorageStatus.unchanged, host)
  else
    let current := GetState host.db addr key
    let original := GetCommittedState host.db addr key
    let db := SetState host.db addr key value
    let hasEIP2200 := IsEnabled host.config.eip2200 host.blockNumber
    let hasEIP1884 := IsEnabled host.config.eip1884 host.blockNumber
    if hasNetStorageCostEIP hasEIP2200 hasEIP1884 = false then
      if oldValue = 0 then (StorageStatus.added, { host with db := db })
      else if value = 0 then
        (StorageStatus.deleted, { host with db := AddRefund db SstoreRefundGas })
      else (StorageStatus.modified, { host with db := db })
    else
      let resetClearRefund := resetClearRefundFor hasEIP2200
      let cleanRefund := cleanRefundFor hasEIP2200
      if original = current then
        if original = 0 then (StorageStatus.added, { host with db := db })
        else if value = 0 then
          (StorageStatus.deleted, { host with db := AddRefund db NetSstoreClearRefund })
        else (StorageStatus.modified, { host with db := db })
      else
        let db1 :=
          if original ≠ 0 then
            if current = 0 then SubRefund db NetSstoreClearRefund
            else if value = 0 then AddRefund db NetSstoreClearRefund
            else db
          else db
        let db2 :=
          if original = value then
            if original = 0 then AddRefund db1 resetClearRefund
            else AddRefund db1 cleanRefund
          else db1
        (StorageStatus.modifiedAgain, { host with db := db2 })

/-- hostContext.Selfdestruct (evmc.go lines 205-212). Modelled from the spec:
the state accessor is not in src; per the spec, suicide marks the account
destroyed and zeroes its balance (the second self-destruct transfers zero),
AddBalance credits the beneficiary, HasSuicided reads the mark. -/
def Selfdestruct (db : StateDB) (addr beneficiary : Nat) : StateDB :=
  let db1 := if db.suicided addr then db else AddRefund db SelfdestructRefundGas
  let db2 := { db1 with
    balances := fun a => if a = beneficiary then db1.balances a + db1.balances addr else db1.balances a }
  { db2 with
    balances := fun a => if a = addr then 0 else db2.balances a
    suicided := fun a => if a = addr then true else db2.suicided a }

/-- Conversion of a signed 64-bit quantity to uint64 as performed by the Go
cast uint64(number): the nonnegative representative modulo 2^64. -/
def uint64OfInt (n : Int) : Nat :=
  (n % (2 : Int) ^ 64).toNat

/-- hostContext.GetBlockHash (evmc.go lines 227-233): b is the current block
number, g the environment hash function keyed by uint64. -/
def GetBlockHash (b : Int) (g : Nat → Nat) (number : Int) : Nat :=
  if b - 256 ≤ number ∧ number < b then g (uint64OfInt number) else 0

/-- evmc.CallKind. -/
inductive CallKind where
  | call
  | delegateCall
  | callCode
  | create
  | create2
deriving DecidableEq

/-- The geth-level errors distinguished by the dispatcher: code-deposit
out-of-gas, an explicit revert, or any other non-nil failure. -/
inductive GoError where
  | codeStoreOutOfGas
  | executionReverted
  | otherFailure
deriving DecidableEq

/-- Errors exposed to the engine after mapping (evmc.Revert / evmc.Failure). -/
inductive EvmcCallError where
  | revert
  | failure
deriving DecidableEq

/-- Result returned by the underlying environment operation (Call,
DelegateCall, CallCode, Create, Create2): the external environment is opaque,
so the dispatcher is parameterised by it. -/
structure EnvCallResult where
  output : List Nat
  createAddr : Nat
  gasLeft : Nat
  err : Option GoError
deriving DecidableEq

/-- Result returned by hostContext.Call to the engine. -/
structure HostCallResult where
  output : List Nat
  gasLeft : Nat
  createAddr : Nat
  err : Option EvmcCallError
deriving DecidableEq

/-- hostContext.Call (evmc.go lines 244-299): route by call kind, apply the
create-specific error handling, then map geth errors to engine errors.
isHomestead is the EIP7 predicate at the current block; r is the result of the
routed environment operation. -/
def Call (kind : CallKind) (isHomestead : Bool) (r : EnvCallResult) : HostCallResult :=
  let routed : List Nat × Nat × Option GoError :=
    match kind with
    | CallKind.call => (r.output, 0, r.err)
    | CallKind.delegateCall => (r.output, 0, r.err)
    | CallKind.callCode => (r.output, 0, r.err)
    | CallKind.create =>
      let err1 := if isHomestead = false ∧ r.err = some GoError.codeStoreOutOfGas then none else r.err
      let output := if err1 = some GoError.executionReverted then r.output else []
      (output, r.createAddr, err1)
    | CallKind.create2 =>
      let output := if r.err = some GoError.executionReverted then r.output else []
      (output, r.createAddr, r.err)
  let mapped : Option EvmcCallError :=
    match routed.2.2 with
    | some GoError.executionReverted => some EvmcCallError.revert
    | some _ => some EvmcCallError.failure
    | none => none
  { output := routed.1, gasLeft := r.gasLeft, createAddr := routed.2.1, err := mapped }

/-- The engine-bridge state that crosses call frames: the call-depth counter
and the read-only flag (EVMC struct fields env.depth and readOnly). -/
structure BridgeState where
  depth : Int
  readOnly : Bool
deriving DecidableEq

/-- Outcome reported by the engine Execute capability: successful output,
an explicit revert with output, an internal engine error, or a generic
failure. -/
inductive EngineResult where
  | success (output : List Nat)
  | revert (output : List Nat)
  | internalError
  | failure (output : List Nat)
deriving DecidableEq

/-- Errors Run reports to its caller. -/
inductive RunError where
  | executionReverted
  | internalModuleError
  | failure
deriving DecidableEq

/-- What one invocation of Run returns, together with the instrumentation the
invariants are stated over: the read-only flag passed to the engine and the
inferred call kind (both none when the engine was not invoked because the
code was empty). -/
structure RunResult where
  output : List Nat
  err : Option RunError
  engineFlag : Option Bool
  engineKind : Option CallKind
deriving DecidableEq

/-- What the engine does during one Execute: either finish with a result, or
re-enter the bridge with a nested Run (code, code size of the target account,
requested read-only flag, behaviour of the nested execution) and continue. -/
inductive Script where
  | done (r : EngineResult)
  | nest (code : List Nat) (csize : Nat) (ro : Bool) (inner : Script) (next : Script)

/-- Map the engine result to the value Run returns (evmc.go lines 352-376):
revert becomes ErrExecutionReverted, an internal error is wrapped with the
output dropped, otherwise output and error pass through. -/
def mapEngineResult (flag : Bool) (kind : CallKind) (r : EngineResult) : RunResult :=
  match r with
  | EngineResult.success output =>
    { output := output, err := none, engineFlag := some flag, engineKind := some kind }
  | EngineResult.revert output =>
    { output := output, err := some RunError.executionReverted,
      engineFlag := some flag, engineKind := some kind }
  | EngineResult.internalError =>
    { output := [], err := some RunError.internalModuleError,
      engineFlag := some flag, engineKind := some kind }
  | EngineResult.failure output =>
    { output := output, err := some RunError.failure,
      engineFlag := some flag, engineKind := some kind }

/-- EVMC.Run (evmc.go lines 330-377), parameterised by the engine behaviour
eng: increment the depth (restored on every exit), return early on empty
code, guess the call kind from the target account code size, set the
read-only flag only when not already set (and clear it again on exit), invoke
the engine, and map its result. -/
def runWith (eng : BridgeState → BridgeState × EngineResult)
    (code : List Nat) (csize : Nat) (readOnly : Bool) (st : BridgeState) :
    RunResult × BridgeState :=
  let st1 : BridgeState := { st with depth := st.depth + 1 }
  if code.isEmpty then
    ({ output := [], err := none, engineFlag := none, engineKind := none },
      { st1 with depth := st1.depth - 1 })
  else
    let kind := if csize = 0 then CallKind.create else CallKind.call
    let setFlag := readOnly && !st1.readOnly
    let st2 := if setFlag then { st1 with readOnly := true } else st1
    let p := eng st2
    let res := mapEngineResult st2.readOnly kind p.2
    let st3 := if setFlag then { p.1 with readOnly := false } else p.1
    (res, { st3 with depth := st3.depth - 1 })

/-- Interpret an engine behaviour script: each nested entry performs a full
Run (re-entering the bridge recursively) and the script then continues in the
resulting bridge state. -/
def execScript : Script → BridgeState → BridgeState × EngineResult
  | Script.done r => fun st => (st, r)
  | Script.nest code csize ro inner next => fun st =>
    let p := runWith (execScript inner) code csize ro st
    execScript next p.2

/-- EVMC.Run with the engine behaviour given as a script. -/
def Run (code : List Nat) (csize : Nat) (readOnly : Bool) (script : Script)
    (st : BridgeState) : RunResult × BridgeState :=
  runWith (execScript script) code csize readOnly st

/-- Configuration with no transition enabled (legacy mode everywhere). -/
def cfgLegacy : ChainConfig :=
  { eip7 := none, eip150 := none, eip155 := none, eip198 := none,
    eip145 := none, eip1283Disable := none, eip1884 := none, eip2200 := none }

/-- Configuration with EIP2200 and EIP1884 enabled from genesis: net storage
metering active at every block. -/
def cfgNet : ChainConfig :=
  { eip7 := none, eip150 := none, eip155 := none, eip198 := none,
    eip145 := none, eip1283Disable := none, eip1884 := some 0, eip2200 := some 0 }

/-- Scenario configuration: the EIP150 and EIP155 transitions activate at
height 100 and no later transition is enabled. -/
def cfg100 : ChainConfig :=
  { eip7 := none, eip150 := some 100, eip155 := some 100, eip198 := none,
    eip145 := none, eip1283Disable := none, eip1884 := none, eip2200 := none }

/-- Concrete state fixture: slot (1, 2) has committed value orig and current
value cur, account 1 holds balance 30, nothing has self-destructed. -/
def testDB (orig cur : Nat) : StateDB :=
  { storage := fun a k => if a = 1 ∧ k = 2 then cur else 0,
    committed := fun a k => if a = 1 ∧ k = 2 then orig else 0,
    refund := 0, refundLog := [], writes := [],
    balances := fun a => if a = 1 then 30 else 0,
    suicided := fun _ => false }

/-- Net-metering environment over the concrete fixture. -/
def hostNetF (orig cur : Nat) : HostEnv :=
  { config := cfgNet, blockNumber := 10, db := testDB orig cur }

/-- Legacy environment over the concrete fixture. -/
def hostLegacyF (orig cur : Nat) : HostEnv :=
  { config := cfgLegacy, blockNumber := 10, db := testDB orig cur }

theorem updFun_same (f : Nat → Nat → Nat) (a k v : Nat) : updFun f a k v a k = v := by
  simp [updFun]

/-- Claim C7 counterexample: with both transitions activating at height 100,
neither is enabled at height 99, so the resolver falls through to Frontier
rather than returning TangerineWhistle. -/
theorem revision_at_99_is_frontier :
    getRevision cfg100 99 = Revision.frontier ∧
    Revision.frontier ≠ Revision.tangerineWhistle := by
  decide

/-- Claim C7 (amended): with the EIP150 and EIP155 transitions both activating
at height 100 and no later transition enabled, the resolver checks predicates
in descending adoption order and returns SpuriousDragon at height 100, while
at height 99 no predicate is yet true and it falls back to Frontier. -/
theorem revision_scenario_heights :
    getRevision cfg100 100 = Revision.spuriousDragon ∧
    getRevision cfg100 99 = Revision.frontier := by
  decide

/-- Claim C5 counterexample: net-metering mode holds only for the feature
combination (true, true), and there the selected reset constants are the
EIP2200-derived pair (19200, 4200); the default pair is never selected in
net-metering mode, as the concrete reset-to-existing write granting 4200
rather than NetSstoreResetRefund = 4800 shows. -/
theorem net_default_constants_unreachable :
    hasNetStorageCostEIP true false = false ∧
    hasNetStorageCostEIP false true = false ∧
    hasNetStorageCostEIP false false = false ∧
    hasNetStorageCostEIP true true = true ∧
    resetClearRefundFor true = 19200 ∧
    cleanRefundFor true = 4200 ∧
    NetSstoreResetRefund = 4800 ∧
    (SetStorage (hostNetF 5 3) 1 2 5).2.db.refund
      = (hostNetF 5 3).db.refund + cleanRefundFor true := by
  decide

/-- Claim C5 (amended): net-metering mode is active only when EIP2200 and
EIP1884 are both enabled; the reset-to-original refund constants are selected
at each write from the EIP2200 flag, but since net-metering mode forces that
flag, the pair actually used is always the EIP2200-derived one. -/
theorem net_metering_constant_selection (e2 e8 : Bool)
    (h : hasNetStorageCostEIP e2 e8 = true) :
    e2 = true ∧ e8 = true ∧
    resetClearRefundFor e2 = SstoreSetGasEIP2200 - SloadGasEIP2200 ∧
    cleanRefundFor e2 = SstoreResetGasEIP2200 - SloadGasEIP2200 := by
  cases e2 <;> cases e8 <;>
    simp_all [hasNetStorageCostEIP, resetClearRefundFor, cleanRefundFor]

theorem net_metering_constant_selection_holds :
    hasNetStorageCostEIP true true = true ∧
    (true = true ∧ true = true ∧
      resetClearRefundFor true = SstoreSetGasEIP2200 - SloadGasEIP2200 ∧
      cleanRefundFor true = SstoreResetGasEIP2200 - SloadGasEIP2200) :=
  ⟨by decide, net_metering_constant_selection true true (by decide)⟩

/-- Claim C8 counterexample: writing the value a slot already holds returns
Unchanged and performs no SetState invocation at all (the write trace stays
empty), so the slot is not written via the set operation in this case. -/
theorem setStorage_unchanged_without_write :
    (SetStorage (hostNetF 7 7) 1 2 7).1 = StorageStatus.unchanged ∧
    (SetStorage (hostNetF 7 7) 1 2 7).2.db.writes = [] := by
  decide

/-- Claim C8 (amended): setStorage invokes the set operation exactly when
newValue differs from the current value; when they are equal it returns
Unchanged before reaching the set operation. In either case the slot ends up
holding newValue. -/
theorem setStorage_write_through (host : HostEnv) (a k v : Nat) :
    (SetStorage host a k v).2.db.storage a k = v ∧
    (SetStorage host a k v).2.db.writes =
      (if host.db.storage a k = v then host.db.writes
       else (a, k, v) :: host.db.writes) := by
  by_cases heq : host.db.storage a k = v
  · simp [SetStorage, GetState, heq]
  · simp only [SetStorage, GetState, GetCommittedState, if_neg heq]
    split_ifs <;> simp_all [SetState, AddRefund, SubRefund, updFun]

/-- Claim C3 counterexample: for kind Create2 on a pre-Homestead revision, a
code-deposit out-of-gas error is not suppressed; it is mapped to the generic
failure signal instead of success. -/
theorem create2_code_deposit_oog_fails :
    (Call CallKind.create2 false
      { output := [7], createAddr := 9, gasLeft := 5,
        err := some GoError.codeStoreOutOfGas }).err = some EvmcCallError.failure ∧
    some EvmcCallError.failure ≠ (none : Option EvmcCallError) := by
  decide

/-- Claim C3 (amended): only kind Create suppresses a code-deposit out-of-gas
error on a pre-Homestead revision (returning success with empty output); for
Create2 that error maps to the generic failure signal. For both create kinds
an explicit revert surfaces the partial output buffer, and every other
non-nil error maps to the generic failure signal with the output discarded. -/
theorem create_dispatch_error_mapping (hs : Bool) (out : List Nat) (ca gas : Nat) :
    Call CallKind.create hs
        { output := out, createAddr := ca, gasLeft := gas,
          err := some GoError.codeStoreOutOfGas }
      = { output := [], gasLeft := gas, createAddr := ca,
          err := if hs then some EvmcCallError.failure else none } ∧
    Call CallKind.create2 hs
        { output := out, createAddr := ca, gasLeft := gas,
          err := some GoError.codeStoreOutOfGas }
      = { output := [], gasLeft := gas, createAddr := ca,
          err := some EvmcCallError.failure } ∧
    Call CallKind.create hs
        { output := out, createAddr := ca, gasLeft := gas,
          err := some GoError.executionReverted }
      = { output := out, gasLeft := gas, createAddr := ca,
          err := some EvmcCallError.revert } ∧
    Call CallKind.create2 hs
        { output := out, createAddr := ca, gasLeft := gas,
          err := some GoError.executionReverted }
      = { output := out, gasLeft := gas, createAddr := ca,
          err := some EvmcCallError.revert } ∧
    Call CallKind.create hs
        { output := out, createAddr := ca, gasLeft := gas,
          err := some GoError.otherFailure }
      = { output := [], gasLeft := gas, createAddr := ca,
          err := some EvmcCallError.failure } ∧
    Call CallKind.create2 hs
        { output := out, createAddr := ca, gasLeft := gas,
          err := some GoError.otherFailure }
      = { output := [], gasLeft := gas, createAddr := ca,
          err := some EvmcCallError.failure } := by
  cases hs <;> simp [Call]

/-- Claim C6: getBlockHash returns the environment hash (applied to the block
number converted to uint64) exactly when currentHeight - 256 <= n < the
current height, and the zero hash for every n outside that window, including
the boundaries n = currentHeight and n = currentHeight - 257. -/
theorem getBlockHash_window (b n : Int) (g : Nat → Nat) :
    (b - 256 ≤ n ∧ n < b → GetBlockHash b g n = g (uint64OfInt n)) ∧
    (¬(b - 256 ≤ n ∧ n < b) → GetBlockHash b g n = 0) ∧
    GetBlockHash b g b = 0 ∧
    GetBlockHash b g (b - 257) = 0 := by
  refine ⟨fun h => ?_, fun h => ?_, ?_, ?_⟩
  · unfold GetBlockHash
    rw [if_pos h]
  · unfold GetBlockHash
    rw [if_neg h]
  · unfold GetBlockHash
    rw [if_neg (by omega)]
  · unfold GetBlockHash
    rw [if_neg (by omega)]

theorem getBlockHash_window_holds :
    GetBlockHash 1000 Nat.succ 900 = Nat.succ (uint64OfInt 900) ∧
    GetBlockHash 1000 Nat.succ 2000 = 0 ∧
    GetBlockHash 1000 Nat.succ 1000 = 0 ∧
    GetBlockHash 1000 Nat.succ (1000 - 257) = 0 :=
  ⟨(getBlockHash_window 1000 900 Nat.succ).1 (by decide),
   (getBlockHash_window 1000 2000 Nat.succ).2.1 (by decide),
   (getBlockHash_window 1000 1000 Nat.succ).2.2.1,
   (getBlockHash_window 1000 0 Nat.succ).2.2.2⟩

/-- Claim C10: the window check does not exclude negative block numbers: when
the current height b is below 257, every negative n with b - 256 <= n passes
the check and is handed to the environment hash function after conversion to
uint64 by twos-complement wraparound, n mod 2^64 = 2^64 + n. -/
theorem getBlockHash_negative_wraps (b n : Int) (g : Nat → Nat)
    (hb0 : 0 ≤ b) (hb : b < 257) (hn : n < 0) (hw : b - 256 ≤ n) :
    GetBlockHash b g n = g (uint64OfInt n) ∧
    (uint64OfInt n : Int) = 2 ^ 64 + n := by
  constructor
  · unfold GetBlockHash
    rw [if_pos ⟨hw, by omega⟩]
  · unfold uint64OfInt
    have hpow : (2 : Int) ^ 64 = 18446744073709551616 := by norm_num
    have hnn : 0 ≤ n % (2 : Int) ^ 64 := Int.emod_nonneg n (by norm_num)
    rw [Int.toNat_of_nonneg hnn, hpow]
    omega

theorem getBlockHash_negative_wraps_holds :
    GetBlockHash 10 Nat.succ (-5) = Nat.succ (uint64OfInt (-5)) ∧
    (uint64OfInt (-5) : Int) = 2 ^ 64 + (-5) :=
  ⟨(getBlockHash_negative_wraps 10 (-5) Nat.succ (by decide) (by decide)
      (by decide) (by decide)).1,
   (getBlockHash_negative_wraps 10 (-5) Nat.succ (by decide) (by decide)
      (by decide) (by decide)).2⟩

/-- Claim C4: in legacy mode (net storage metering off), a write whose new
value differs from the current value is classified against zero only: current
value zero gives Added with no refund change, new value zero gives Deleted
and adds the fixed SstoreRefundGas constant, any other change gives Modified
with no refund change; and no legacy-mode path ever subtracts from the refund
counter. -/
theorem legacy_setStorage_classification (host : HostEnv) (a k v : Nat)
    (hmode : hasNetStorageCostEIP (IsEnabled host.config.eip2200 host.blockNumber)
      (IsEnabled host.config.eip1884 host.blockNumber) = false)
    (hne : host.db.storage a k ≠ v) :
    (SetStorage host a k v).1 =
      (if host.db.storage a k = 0 then StorageStatus.added
       else if v = 0 then StorageStatus.deleted
       else StorageStatus.modified) ∧
    (SetStorage host a k v).2.db.refund =
      host.db.refund +
        (if host.db.storage a k ≠ 0 ∧ v = 0 then SstoreRefundGas else 0) ∧
    ∀ w, host.db.refund ≤ (SetStorage host a k w).2.db.refund := by
  refine ⟨?_, ?_, ?_⟩
  · simp [SetStorage, GetState, GetCommittedState, hne, hmode]
    split_ifs <;> simp_all [SetState, AddRefund]
  · simp [SetStorage, GetState, GetCommittedState, hne, hmode]
    split_ifs <;> simp_all [SetState, AddRefund]
  · intro w
    by_cases hw : host.db.storage a k = w
    · simp [SetStorage, GetState, hw]
    · simp [SetStorage, GetState, GetCommittedState, hw, hmode]
      split_ifs <;> simp [SetState, AddRefund]

theorem legacy_setStorage_classification_holds :
    (SetStorage (hostLegacyF 0 0) 1 2 5).1 =
      (if (hostLegacyF 0 0).db.storage 1 2 = 0 then StorageStatus.added
       else if 5 = 0 then StorageStatus.deleted
       else StorageStatus.modified) ∧
    (SetStorage (hostLegacyF 0 0) 1 2 5).2.db.refund =
      (hostLegacyF 0 0).db.refund +
        (if (hostLegacyF 0 0).db.storage 1 2 ≠ 0 ∧ 5 = 0 then SstoreRefundGas else 0) ∧
    (hostLegacyF 0 0).db.refund ≤ (SetStorage (hostLegacyF 0 0) 1 2 0).2.db.refund :=
  ⟨(legacy_setStorage_classification (hostLegacyF 0 0) 1 2 5 (by decide) (by decide)).1,
   (legacy_setStorage_classification (hostLegacyF 0 0) 1 2 5 (by decide) (by decide)).2.1,
   (legacy_setStorage_classification (hostLegacyF 0 0) 1 2 5 (by decide) (by decide)).2.2 0⟩

/-- Claim C9: selfDestruct grants the fixed refund exactly when the account
has not already self-destructed this transaction; every call transfers the
full current balance to the beneficiary and marks the account destroyed, and
two calls on the same address grant the refund exactly once while the second
call transfers zero. -/
theorem selfdestruct_refund_once_transfer_always (db : StateDB) (addr ben : Nat)
    (hne : addr ≠ ben) :
    (db.suicided addr = false →
      (Selfdestruct db addr ben).refund = db.refund + SelfdestructRefundGas) ∧
    (db.suicided addr = true → (Selfdestruct db addr ben).refund = db.refund) ∧
    (Selfdestruct db addr ben).balances ben = db.balances ben + db.balances addr ∧
    (Selfdestruct db addr ben).suicided addr = true ∧
    (Selfdestruct db addr ben).balances addr = 0 ∧
    (Selfdestruct (Selfdestruct db addr ben) addr ben).refund
      = db.refund + (if db.suicided addr then 0 else SelfdestructRefundGas) ∧
    (Selfdestruct (Selfdestruct db addr ben) addr ben).balances ben
      = db.balances ben + db.balances addr := by
  have hbn : ben ≠ addr := fun h => hne h.symm
  cases hsu : db.suicided addr <;>
    simp [Selfdestruct, AddRefund, hne, hbn, hsu]

theorem selfdestruct_refund_once_transfer_always_holds :
    (Selfdestruct (testDB 0 0) 1 2).refund
      = (testDB 0 0).refund + SelfdestructRefundGas ∧
    (Selfdestruct (testDB 0 0) 1 2).balances 2
      = (testDB 0 0).balances 2 + (testDB 0 0).balances 1 ∧
    (Selfdestruct (testDB 0 0) 1 2).suicided 1 = true ∧
    (Selfdestruct (testDB 0 0) 1 2).balances 1 = 0 ∧
    (Selfdestruct (Selfdestruct (testDB 0 0) 1 2) 1 2).refund
      = (testDB 0 0).refund +
          (if (testDB 0 0).suicided 1 then 0 else SelfdestructRefundGas) ∧
    (Selfdestruct (Selfdestruct (testDB 0 0) 1 2) 1 2).balances 2
      = (testDB 0 0).balances 2 + (testDB 0 0).balances 1 :=
  ⟨(selfdestruct_refund_once_transfer_always (testDB 0 0) 1 2 (by decide)).1 (by decide),
   (selfdestruct_refund_once_transfer_always (testDB 0 0) 1 2 (by decide)).2.2.1,
   (selfdestruct_refund_once_transfer_always (testDB 0 0) 1 2 (by decide)).2.2.2.1,
   (selfdestruct_refund_once_transfer_always (testDB 0 0) 1 2 (by decide)).2.2.2.2.1,
   (selfdestruct_refund_once_transfer_always (testDB 0 0) 1 2 (by decide)).2.2.2.2.2.1,
   (selfdestruct_refund_once_transfer_always (testDB 0 0) 1 2 (by decide)).2.2.2.2.2.2⟩

/-- Claim C1: in net-metering mode, starting from committed value c (equal to
the current value), the two writes c to x and x back to c (any x different
from c) change the refund counter by exactly the single-step reset refund for
the class of c: the reset-to-nonexistent constant when c is zero, the
reset-to-existing constant otherwise; and in the clearing case both the
step-2 adjustment (subtract the clear refund) and the step-3 reset refund
fire on the second write. -/
theorem net_metering_reset_roundtrip (host : HostEnv) (a k c x : Nat)
    (h2200 : IsEnabled host.config.eip2200 host.blockNumber = true)
    (h1884 : IsEnabled host.config.eip1884 host.blockNumber = true)
    (hcom : host.db.committed a k = c)
    (hcur : host.db.storage a k = c)
    (hx : x ≠ c) :
    (SetStorage (SetStorage host a k x).2 a k c).2.db.refund
      = host.db.refund +
          (if c = 0 then resetClearRefundFor true else cleanRefundFor true) ∧
    (c ≠ 0 → x = 0 →
      (SetStorage (SetStorage host a k x).2 a k c).2.db.refundLog
        = RefundOp.add (cleanRefundFor true)
            :: RefundOp.sub NetSstoreClearRefund
            :: (SetStorage host a k x).2.db.refundLog) := by
  have hcx : c ≠ x := fun h => hx h.symm
  by_cases hc : c = 0
  · subst hc
    have hx0 : x ≠ 0 := hx
    have h1 : (SetStorage host a k x).2
        = { host with db := SetState host.db a k x } := by
      simp [SetStorage, GetState, GetCommittedState, hcom, hcur, h2200, h1884,
        hasNetStorageCostEIP, hcx]
    refine ⟨?_, fun hc2 _ => absurd rfl hc2⟩
    rw [h1]
    simp [SetStorage, GetState, GetCommittedState, SetState, AddRefund, updFun,
      hcom, hx, hx0, hcx, h2200, h1884, hasNetStorageCostEIP]
  · by_cases hx0 : x = 0
    · subst hx0
      have hzc : (0 : Nat) ≠ c := fun h => hc h.symm
      have h1 : (SetStorage host a k 0).2
          = { host with db := AddRefund (SetState host.db a k 0) NetSstoreClearRefund } := by
        simp [SetStorage, GetState, GetCommittedState, hcom, hcur, h2200, h1884,
          hasNetStorageCostEIP, hcx, hc]
      refine ⟨?_, fun _ _ => ?_⟩
      · rw [h1]
        simp [SetStorage, GetState, GetCommittedState, SetState, AddRefund, SubRefund,
          updFun, hcom, hc, hzc, h2200, h1884, hasNetStorageCostEIP]
      · rw [h1]
        simp [SetStorage, GetState, GetCommittedState, SetState, AddRefund, SubRefund,
          updFun, hcom, hc, hzc, h2200, h1884, hasNetStorageCostEIP]
    · have h1 : (SetStorage host a k x).2
          = { host with db := SetState host.db a k x } := by
        simp [SetStorage, GetState, GetCommittedState, hcom, hcur, h2200, h1884,
          hasNetStorageCostEIP, hcx, hc, hx0]
      refine ⟨?_, fun _ hx0f => absurd hx0f hx0⟩
      rw [h1]
      simp [SetStorage, GetState, GetCommittedState, SetState, AddRefund, updFun,
        hcom, hc, hx, hcx, hx0, h2200, h1884, hasNetStorageCostEIP]

theorem net_metering_reset_roundtrip_holds :
    (SetStorage (SetStorage (hostNetF 7 7) 1 2 0).2 1 2 7).2.db.refund
      = (hostNetF 7 7).db.refund +
          (if 7 = 0 then resetClearRefundFor true else cleanRefundFor true) ∧
    (SetStorage (SetStorage (hostNetF 7 7) 1 2 0).2 1 2 7).2.db.refundLog
      = RefundOp.add (cleanRefundFor true)
          :: RefundOp.sub NetSstoreClearRefund
          :: (SetStorage (hostNetF 7 7) 1 2 0).2.db.refundLog :=
  ⟨(net_metering_reset_roundtrip (hostNetF 7 7) 1 2 7 0 (by decide) (by decide)
      (by decide) (by decide) (by decide)).1,
   (net_metering_reset_roundtrip (hostNetF 7 7) 1 2 7 0 (by decide) (by decide)
      (by decide) (by decide) (by decide)).2 (by decide) rfl⟩

theorem mapEngineResult_engineFlag (flag : Bool) (kind : CallKind) (r : EngineResult) :
    (mapEngineResult flag kind r).engineFlag = some flag := by
  cases r <;> rfl

theorem runWith_snd (eng : BridgeState → BridgeState × EngineResult)
    (heng : ∀ st2, (eng st2).1 = st2) (code : List Nat) (csize : Nat)
    (ro : Bool) (st : BridgeState) :
    (runWith eng code csize ro st).2 = st := by
  obtain ⟨d, r⟩ := st
  by_cases hcode : code.isEmpty <;> cases ro <;> cases r <;>
    simp [runWith, hcode, heng]

theorem runWith_flag (eng : BridgeState → BridgeState × EngineResult)
    (code : List Nat) (csize : Nat) (ro : Bool) (st : BridgeState) :
    (runWith eng code csize ro st).1.engineFlag
      = if code.isEmpty then none else some (st.readOnly || ro) := by
  obtain ⟨d, r⟩ := st
  by_cases hcode : code.isEmpty <;> cases ro <;> cases r <;>
    simp [runWith, hcode, mapEngineResult_engineFlag]

theorem execScript_fst (script : Script) : ∀ st, (execScript script st).1 = st := by
  induction script with
  | done r => intro st; rfl
  | nest code csize ro inner next ih_inner ih_next =>
    intro st
    show (execScript next (runWith (execScript inner) code csize ro st).2).1 = st
    rw [runWith_snd (execScript inner) ih_inner code csize ro st]
    exact ih_next st

/-- Claim C2: every invocation of Run restores the call-depth counter and the
read-only flag to their pre-call values on every exit path (empty code,
engine revert, engine internal error, normal return, and any nesting of
recursive calls the engine performs), and the flag passed to the engine is
the pre-call flag joined with the request, so a caller requesting read-only
inside an already read-only bridge leaves the flag set and a descendant can
never clear a read-only flag set by an ancestor. -/
theorem run_stack_discipline (code : List Nat) (csize : Nat) (ro : Bool)
    (script : Script) (st : BridgeState) :
    (Run code csize ro script st).2 = st ∧
    (Run code csize ro script st).1.engineFlag
      = (if code.isEmpty then none else some (st.readOnly || ro)) :=
  ⟨runWith_snd (execScript script) (execScript_fst script) code csize ro st,
   runWith_flag (execScript script) code csize ro st⟩

end EvmcBridge
